import Mathlib

/-!
Shallow embedding of the inventory / product-catalog subsystem of
`peckhweechin/telebot-fyp` (`src/app.js`).  The file is a concatenation of
two historical variants of the same Express application; each route handler
cited by the specification is embedded as a pure Lean function from an
explicit database state (plus the parsed request) to a new state and a
result value.  Machine integers are modelled as `Int` (JS numbers on the
integer inputs the claims are about), SQL tables as Lean lists, and the
`public/uploads` directory (the blob store) as a list of stored keys.
-/

/-- A row of the `products` table.  Columns are the union observed across
the INSERT/UPDATE statements in `src/app.js` (`name`, `description`,
`price`, `quantity`, `telegram_stock`, `warehouse_stock`, `stock`,
`category_id`, `image_url`, `is_active`, `created_at`). -/
structure Product where
  id : Nat
  name : String
  description : String
  price : Int
  quantity : Int
  telegram_stock : Int
  warehouse_stock : Int
  stock : Int
  category_id : Nat
  image_url : Option String
  is_active : Bool
  created_at : Nat
deriving Repr, DecidableEq

/-- A row of the `product_images` table (`id`, `product_id`, `image_url`). -/
structure ProductImage where
  id : Nat
  product_id : Nat
  image_url : String
deriving Repr, DecidableEq

/-- A row of the `inventory_adjustments` table
(`product_id`, `change_amount`, `reason`). -/
structure Adjustment where
  product_id : Nat
  change_amount : Int
  reason : Option String
deriving Repr, DecidableEq

/-- A row of the `categories` table (the fields the embedded handlers read). -/
structure Category where
  id : Nat
  name : String
  is_active : Bool
deriving Repr, DecidableEq

/-- The database state plus the `public/uploads` blob store.  Blob keys are
stored in `image_url` form (`"/uploads/" ++ filename`), matching how the
handlers build URLs from multer filenames. -/
structure DB where
  products : List Product
  product_images : List ProductImage
  categories : List Category
  adjustments : List Adjustment
  blobs : List String
deriving Repr, DecidableEq

/-- Outcome of `POST /admin/inventory/update-stock` (src/app.js:878-925). -/
inductive StockResult where
  | missingData      -- 400 "Missing data"
  | productNotFound  -- 500 "Product not found"
  | success          -- json { success: true }
deriving Repr, DecidableEq

/-- `POST /admin/inventory/update-stock` (src/app.js:878-925).
`productId = none` or `some 0` models a falsy `req.body.productId`;
`newStock = none` models `newStock === undefined`.  The handler reads the
current `stock`, overwrites it with `newStock`, and logs the difference in
`inventory_adjustments`.  It consults no other counter. -/
def updateStock (db : DB) (productId : Option Nat) (newStock : Option Int)
    (reason : Option String) : DB × StockResult :=
  match productId, newStock with
  | some pid, some n =>
    if pid == 0 then (db, .missingData)
    else
      match db.products.find? (fun p => p.id == pid) with
      | none => (db, .productNotFound)
      | some p =>
        let diff := n - p.stock
        let products' := db.products.map
          (fun q => if q.id == pid then { q with stock := n } else q)
        ({ db with
            products := products',
            adjustments := db.adjustments ++ [⟨pid, diff, reason⟩] }, .success)
  | _, _ => (db, .missingData)

/-- Outcome of `POST /admin/inventory/update/:id` (src/app.js:2276-2305). -/
inductive StockByIdResult where
  | invalidStock  -- re-rendered with "Stock must be 0 or more"
  | success       -- redirect to /admin/inventory
deriving Repr, DecidableEq

/-- `POST /admin/inventory/update/:id` (src/app.js:2276-2305).
`stock = none` models an empty / null / non-numeric `req.body.stock`
(the `isNaN` guard); a negative value is rejected; otherwise the row's
`stock` column is overwritten.  No other counter is read or written. -/
def updateStockById (db : DB) (productId : Nat) (stock : Option Int) :
    DB × StockByIdResult :=
  match stock with
  | none => (db, .invalidStock)
  | some s =>
    if s < 0 then (db, .invalidStock)
    else
      let products' := db.products.map
        (fun q => if q.id == productId then { q with stock := s } else q)
      ({ db with products := products' }, .success)

/-- One update-stock request folded by `runUpdateStockSeq`. -/
structure StockCall where
  productId : Option Nat
  newStock : Option Int
  reason : Option String
deriving Repr, DecidableEq

/-- Process a sequence of `POST /admin/inventory/update-stock` requests. -/
def runUpdateStockSeq (db : DB) (calls : List StockCall) : DB :=
  calls.foldl (fun d c => (updateStock d c.productId c.newStock c.reason).1) db

-- A concrete state used by several counterexamples: one product whose
-- sellable (`stock`) counter is 10 and whose `warehouse_stock` is 5.
def prodTen : Product :=
  { id := 1, name := "Widget", description := "", price := 2,
    quantity := 10, telegram_stock := 10, warehouse_stock := 5, stock := 10,
    category_id := 1, image_url := none, is_active := true, created_at := 0 }

def dbTen : DB :=
  { products := [prodTen], product_images := [], categories := [],
    adjustments := [], blobs := [] }

/-- `AUTO_INCREMENT` for the `products` table: one more than the largest
existing id (MySQL starts at 1 on an empty table). -/
def nextProductId (db : DB) : Nat :=
  (db.products.map Product.id).foldr max 0 + 1

/-- `AUTO_INCREMENT` for the `product_images` table. -/
def nextImageId (db : DB) : Nat :=
  (db.product_images.map ProductImage.id).foldr max 0 + 1

/-- Parsed body and uploads of a `POST /admin/addproduct` request.
`none` in a field models a missing or falsy (empty-string) form value;
`coverIndex = none` models a `coverIndex` on which `parseInt` yields NaN.
`files` holds the multer-generated filenames of the uploads. -/
structure AddProductReq where
  name : Option String
  description : Option String
  price : Option Int
  quantity : Option Int
  category_id : Option Nat
  coverIndex : Option Int
  files : List String
deriving Repr, DecidableEq

/-- Outcome of the second `POST /admin/addproduct` variant.
`.referenceError` models the uncaught `ReferenceError: productId is not
defined` thrown at src/app.js:1531: the image-insert code sits OUTSIDE the
products-INSERT callback that declares `productId` (src/app.js:1523-1527),
so every run that passes the duplicate check throws there.  The `.success`
constructor mirrors the redirect at src/app.js:1550 but is dead code: the
handler can never reach it. -/
inductive AddProductResult where
  | validationError  -- "All fields are required and at least one image ..."
  | duplicateName    -- "Product with this name already exists"
  | referenceError   -- ReferenceError: productId is not defined (1531)
  | success (productId : Nat)
deriving Repr, DecidableEq

/-- The `safeIndex` clamp of the second addproduct variant
(src/app.js:1539-1542): `Math.min(Math.max(coverIndex, 0), L - 1)` where
`coverIndex` defaults to 0 when `parseInt` is not finite.  This snippet is
unreachable in the handler: it sits inside the image-insert callback, and
the handler throws before that insert is issued (see `addProduct2`). -/
def safeIndex (coverIndex : Option Int) (L : Nat) : Nat :=
  (min (max (coverIndex.getD 0) 0) ((L : Int) - 1)).toNat

/-- `POST /admin/addproduct` (second variant, src/app.js:1437-1558).
The multer middleware (`upload.array('images', 10)`) stores the uploaded
files in `public/uploads` before the handler body runs, so the blob store
grows on every path, including the failure ones.  The handler then
validates presence and checks for an active product with the same name.
When both pass it calls `db.query` to dispatch the products INSERT
(`telegram_stock := quantity`, `warehouse_stock := 0`,
`stock := quantity`, `is_active = 1`, no cover) — the row is created —
and execution continues synchronously at src/app.js:1530.  Line 1531
references `productId`, which was declared only inside the INSERT
callback (src/app.js:1523), so the handler throws `ReferenceError`
before any `product_images` INSERT, cover UPDATE, or success redirect:
the image-insert and `safeIndex` cover code at 1530-1554 is dead. -/
def addProduct2 (db : DB) (req : AddProductReq) (now : Nat) :
    DB × AddProductResult :=
  let db0 : DB :=
    { db with blobs := db.blobs ++ req.files.map (fun f => "/uploads/" ++ f) }
  match req.name, req.price, req.quantity, req.category_id with
  | some name, some price, some quantity, some categoryId =>
    if req.files.isEmpty then (db0, .validationError)
    else if !(db0.products.filter
        (fun p => p.name == name && p.is_active)).isEmpty then
      (db0, .duplicateName)
    else
      let pid := nextProductId db0
      let prod : Product :=
        { id := pid, name := name, description := req.description.getD "",
          price := price, quantity := quantity,
          telegram_stock := quantity, warehouse_stock := 0, stock := quantity,
          category_id := categoryId, image_url := none, is_active := true,
          created_at := now }
      let db1 : DB := { db0 with products := db0.products ++ [prod] }
      (db1, .referenceError)
  | _, _, _, _ => (db0, .validationError)

/-- Outcome of the first `POST /admin/addproduct` variant.  `.crash` models
the uncaught `TypeError` thrown when `req.files[coverIndex]` is `undefined`
and the handler reads `.filename` on it. -/
inductive AddProduct1Result where
  | validationError
  | duplicateName
  | crash (productId : Nat)
  | success (productId : Nat)
deriving Repr, DecidableEq

/-- `POST /admin/addproduct` (first variant, src/app.js:261-334).
Same validation and duplicate check, but the INSERT covers only
(`name`, `description`, `price`, `quantity`, `category_id`) — the other
columns keep their schema defaults — and the cover index
`parseInt(req.body.coverIndex) || 0` is used UNCLAMPED:
`req.files[coverIndex].filename` throws when the index is out of range
(negative or ≥ files.length), after the product row was already inserted
and before any image row is inserted. -/
def addProduct1 (db : DB) (req : AddProductReq) (now : Nat) :
    DB × AddProduct1Result :=
  let db0 : DB :=
    { db with blobs := db.blobs ++ req.files.map (fun f => "/uploads/" ++ f) }
  match req.name, req.price, req.quantity, req.category_id with
  | some name, some price, some quantity, some categoryId =>
    if req.files.isEmpty then (db0, .validationError)
    else if !(db0.products.filter
        (fun p => p.name == name && p.is_active)).isEmpty then
      (db0, .duplicateName)
    else
      let pid := nextProductId db0
      let prod : Product :=
        { id := pid, name := name, description := req.description.getD "",
          price := price, quantity := quantity,
          telegram_stock := 0, warehouse_stock := 0, stock := 0,
          category_id := categoryId, image_url := none, is_active := true,
          created_at := now }
      let db1 : DB := { db0 with products := db0.products ++ [prod] }
      let coverIndex : Int := (req.coverIndex.getD 0)
      match (if 0 ≤ coverIndex then req.files.get? coverIndex.toNat else none) with
      | none => (db1, .crash pid)
      | some f =>
        let products' := db1.products.map (fun p =>
          if p.id == pid then { p with image_url := some ("/uploads/" ++ f) }
          else p)
        let db2 : DB := { db1 with products := products' }
        let base := nextImageId db2
        let rows := req.files.enum.map (fun e =>
          ({ id := base + e.1, product_id := pid,
             image_url := "/uploads/" ++ e.2 } : ProductImage))
        ({ db2 with product_images := db2.product_images ++ rows }, .success pid)
  | _, _, _, _ => (db0, .validationError)

def emptyDB : DB :=
  { products := [], product_images := [], categories := [],
    adjustments := [], blobs := [] }

def addReq3 : AddProductReq :=
  { name := some "Gadget", description := some "d", price := some 5,
    quantity := some 3, category_id := some 1, coverIndex := some 0,
    files := ["a.png"] }

def dupReq : AddProductReq :=
  { name := some "Widget", description := none, price := some 4,
    quantity := some 2, category_id := some 1, coverIndex := some 0,
    files := ["g.png"] }

def oobReq : AddProductReq :=
  { name := some "Solo", description := none, price := some 1,
    quantity := some 1, category_id := some 1, coverIndex := some 5,
    files := ["a.png"] }

/-- The `removeImagesPromise` step of the second editproduct variant
(src/app.js:1621-1647; the first variant's DELETE at 390-401 is the same
minus the file unlink).  For a nonempty id list it selects ALL
`product_images` rows whose id is listed — with no `product_id` filter —
unlinks their files, and deletes the rows.  There is no failure outcome:
ids that belong to no row, or to another product's row, are not rejected. -/
def removeImagesStep (db : DB) (removedIds : List Nat) : DB :=
  if removedIds.isEmpty then db
  else
    let doomedUrls := (db.product_images.filter
      (fun r => removedIds.contains r.id)).map ProductImage.image_url
    { db with
      product_images := db.product_images.filter
        (fun r => !(removedIds.contains r.id)),
      blobs := db.blobs.filter (fun b => !(doomedUrls.contains b)) }

/-- `SELECT ... ORDER BY id ASC LIMIT 1` over a bag of image rows: the row
with the least id, `none` on an empty bag. -/
def minById : List ProductImage → Option ProductImage
  | [] => none
  | r :: rs =>
    match minById rs with
    | none => some r
    | some m => if r.id < m.id then some r else some m

/-- `SELECT image_url FROM product_images WHERE product_id = ? ORDER BY id
ASC LIMIT 1` (src/app.js:1685, 1697). -/
def earliestImageOf (imgs : List ProductImage) (pid : Nat) :
    Option ProductImage :=
  minById (imgs.filter (fun r => r.product_id == pid))

/-- Cover selection of the second editproduct variant
(src/app.js:1660-1704): a truthy `coverImageId` is looked up with
`WHERE id = ? AND product_id = ?`; on a miss, and when no id was sent, the
fallback is the earliest image of the product, or NULL with no images. -/
def coverFallback (imgs : List ProductImage) (pid : Nat)
    (coverImageId : Option Nat) : Option String :=
  match coverImageId with
  | some cid =>
    match imgs.find? (fun r => r.id == cid && r.product_id == pid) with
    | some r => some r.image_url
    | none => (earliestImageOf imgs pid).map ProductImage.image_url
  | none => (earliestImageOf imgs pid).map ProductImage.image_url

/-- Parsed body and uploads of `POST /admin/editproduct/:id` (second
variant).  `removedImages = []` models an absent/empty list;
`coverImageId = none` models a falsy `coverImageId`. -/
structure EditProductReq where
  name : String
  description : Option String
  price : Int
  quantity : Int
  category_id : Nat
  removedImages : List Nat
  coverImageId : Option Nat
  files : List String
deriving Repr, DecidableEq

/-- `POST /admin/editproduct/:id` (second variant, src/app.js:1601-1708).
Multer stores the new uploads; the handler updates the product's fields
(`stock` is kept in sync with `quantity`), removes the listed image rows
(no ownership check), inserts the new uploads as image rows, and finally
sets the cover via `coverFallback`.  The remove/add steps run under
`Promise.all`; ids are assigned by AUTO_INCREMENT either way, so they are
modelled sequentially. -/
def editProduct2 (db : DB) (pid : Nat) (req : EditProductReq) : DB :=
  let db0 : DB :=
    { db with blobs := db.blobs ++ req.files.map (fun f => "/uploads/" ++ f) }
  let fieldsOf : Product → Product := fun p =>
    if p.id == pid then
      { p with
          name := req.name,
          description := req.description.getD "",
          price := req.price,
          quantity := req.quantity,
          stock := req.quantity,
          category_id := req.category_id }
    else p
  let db1 : DB := { db0 with products := db0.products.map fieldsOf }
  let db2 := removeImagesStep db1 req.removedImages
  let base := nextImageId db2
  let rows := req.files.enum.map (fun e =>
    ({ id := base + e.1, product_id := pid,
       image_url := "/uploads/" ++ e.2 } : ProductImage))
  let db3 : DB := { db2 with product_images := db2.product_images ++ rows }
  let cover := coverFallback db3.product_images pid req.coverImageId
  let coverOf : Product → Product := fun p =>
    if p.id == pid then { p with image_url := cover } else p
  { db3 with products := db3.products.map coverOf }

/-- `POST /admin/deleteproduct/:id` (src/app.js:1726-1761; the same logic
appears at 473-508): fetches the product's image urls, unlinks each file,
deletes the `product_images` rows, then deletes the product row itself.
A HARD delete — no `is_active` flag is involved. -/
def deleteProduct (db : DB) (pid : Nat) : DB :=
  let doomedUrls := (db.product_images.filter
    (fun r => r.product_id == pid)).map ProductImage.image_url
  { db with
    blobs := db.blobs.filter (fun b => !(doomedUrls.contains b)),
    product_images := db.product_images.filter
      (fun r => !(r.product_id == pid)),
    products := db.products.filter (fun p => !(p.id == pid)) }

/-- Case-insensitive substring test modelling SQL `LIKE '%q%'` under the
default case-insensitive collation. -/
def likeContains (s q : String) : Bool :=
  (List.range (s.length + 1)).any
    (fun i => q.toLower.toList.isPrefixOf (s.toLower.toList.drop i))

/-- The WHERE clause built by `GET /admin/products` (second variant,
src/app.js:1370-1383): an optional substring match on product name,
description, or joined category name, AND an optional exact category
filter.  `none` models an absent or empty-after-trim query parameter. -/
def matchesFilter (db : DB) (q : Option String) (catId : Option Nat)
    (p : Product) : Bool :=
  (match q with
   | none => true
   | some qs =>
     likeContains p.name qs || likeContains p.description qs ||
       (match db.categories.find? (fun c => c.id == p.category_id) with
        | some c => likeContains c.name qs
        | none => false)) &&
  (match catId with
   | none => true
   | some cid => p.category_id == cid)

/-- Insert into a list already sorted by `created_at` ascending. -/
def insertByCreated (p : Product) : List Product → List Product
  | [] => [p]
  | q :: qs =>
    if p.created_at ≤ q.created_at then p :: q :: qs
    else q :: insertByCreated p qs

/-- `ORDER BY p.created_at ASC` — insertion sort by creation time. -/
def sortByCreated : List Product → List Product
  | [] => []
  | p :: ps => insertByCreated p (sortByCreated ps)

/-- What `GET /admin/products` renders: the page of rows plus the clamped
page number and the reported page count. -/
structure ListResult where
  items : List Product
  page : Int
  totalPages : Nat
deriving Repr, DecidableEq

/-- `GET /admin/products` (second variant, src/app.js:1359-1410).
`pageReq` is the result of `parseInt(req.query.page || '1', 10)`; the
handler clamps it with `Math.max(·, 1)`, uses the fixed `limit = 6`,
counts the matching rows, reports
`totalPages = Math.max(Math.ceil(total / limit), 1)` and returns the
`LIMIT 6 OFFSET (page-1)*6` slice of the rows ordered by `created_at`
ascending. -/
def listProducts (db : DB) (pageReq : Int) (q : Option String)
    (catId : Option Nat) : ListResult :=
  let limit : Nat := 6
  let page : Int := max pageReq 1
  let offsetN : Nat := ((page - 1) * (limit : Int)).toNat
  let matching := db.products.filter (matchesFilter db q catId)
  let total := matching.length
  { items := ((sortByCreated matching).drop offsetN).take limit,
    page := page,
    totalPages := max ((total + limit - 1) / limit) 1 }

/-- `GET /admin/check-product-name` (src/app.js:437-452 and 1711-1723).
`name = none` models a missing `req.query.name`; `dbError = true` models
the query calling back with an error.  Both the missing-name and the
error path answer `{ exists: false }`; otherwise the answer is whether an
active product with exactly that name exists. -/
def checkProductName (db : DB) (dbError : Bool) (name : Option String) :
    Bool :=
  match name with
  | none => false
  | some n =>
    if dbError then false
    else !(db.products.filter (fun p => p.name == n && p.is_active)).isEmpty

def prodTwo : Product := { prodTen with id := 2, name := "Other" }

def imgOwn : ProductImage := ⟨1, 1, "/uploads/own.png"⟩

def imgOther : ProductImage := ⟨7, 2, "/uploads/other.png"⟩

def dbTwo : DB :=
  { products := [prodTen, prodTwo],
    product_images := [imgOwn, imgOther],
    categories := [], adjustments := [],
    blobs := ["/uploads/own.png", "/uploads/other.png"] }

def editReqRemove7 : EditProductReq :=
  { name := "Widget", description := none, price := 2, quantity := 10,
    category_id := 1, removedImages := [7], coverImageId := none,
    files := [] }

def dbImg : DB :=
  { products := [prodTen],
    product_images := [⟨1, 1, "/uploads/w.png"⟩],
    categories := [], adjustments := [], blobs := ["/uploads/w.png"] }

def dbCover : DB :=
  { products := [prodTen],
    product_images := [⟨1, 1, "/uploads/a.png"⟩, ⟨2, 1, "/uploads/b.png"⟩],
    categories := [], adjustments := [],
    blobs := ["/uploads/a.png", "/uploads/b.png"] }

def editReqCover : EditProductReq :=
  { name := "Widget", description := none, price := 2, quantity := 10,
    category_id := 1, removedImages := [1], coverImageId := some 1,
    files := [] }

def pAfterCover : Product := { prodTen with image_url := some "/uploads/b.png" }

/-- Helper: `updateStock` never changes any product's `warehouse_stock`
(nor which products exist). -/
theorem updateStock_warehouse_map (db : DB) (productId : Option Nat)
    (newStock : Option Int) (reason : Option String) :
    ((updateStock db productId newStock reason).1).products.map
        (fun p => (p.id, p.warehouse_stock))
      = db.products.map (fun p => (p.id, p.warehouse_stock)) := by
  unfold updateStock
  match productId, newStock with
  | none, _ => rfl
  | some pid, none => rfl
  | some pid, some n =>
    simp only
    by_cases h0 : pid = 0
    · simp [h0]
    · simp only [beq_iff_eq, h0, if_false]
      cases hf : db.products.find? (fun p => p.id == pid) with
      | none => rfl
      | some p =>
        simp only [List.map_map]
        apply List.map_congr_left
        intro q _
        by_cases hq : q.id = pid <;> simp [Function.comp, hq]

/-- C1, counterexample: with sellable (`stock`) 10 and `warehouse_stock` 5,
requesting new stock 20 (an increase of 10, exceeding the warehouse's 5)
does NOT fail: the handler reports success and sets `stock` to 20, so the
counters do not stay at 10/5 as the claim requires. -/
theorem updateStock_ignores_warehouse_cex :
    (updateStock dbTen (some 1) (some 20) none).2 = .success ∧
    ((updateStock dbTen (some 1) (some 20) none).1).products.map Product.stock
      = [20] ∧
    ((updateStock dbTen (some 1) (some 20) none).1).products.map
        Product.warehouse_stock = [5] := by
  decide

/-- C1, amended: `POST /admin/inventory/update-stock` performs no warehouse
check at all.  Whenever `productId` and `newStock` are present and the
product exists, the call succeeds (there is no `InsufficientWarehouseStock`
outcome), sets the product's `stock` to the requested value, and leaves
every product's `warehouse_stock` unchanged. -/
theorem updateStock_no_warehouse_check (db : DB) (pid : Nat) (n : Int)
    (reason : Option String) (p : Product)
    (hpid : pid ≠ 0)
    (hp : db.products.find? (fun q => q.id == pid) = some p) :
    (updateStock db (some pid) (some n) reason).2 = .success ∧
    ((updateStock db (some pid) (some n) reason).1).products.map
        (fun q => (q.id, q.warehouse_stock))
      = db.products.map (fun q => (q.id, q.warehouse_stock)) ∧
    ∀ q ∈ ((updateStock db (some pid) (some n) reason).1).products,
        q.id = pid → q.stock = n := by
  refine ⟨?_, updateStock_warehouse_map db (some pid) (some n) reason, ?_⟩
  · simp [updateStock, hpid, hp]
  · intro q hq hqid
    simp only [updateStock, beq_iff_eq, hpid, if_false, hp] at hq
    obtain ⟨r, hr, hfr⟩ := List.mem_map.mp hq
    by_cases h : r.id = pid
    · simp only [beq_iff_eq, h, if_true] at hfr
      rw [← hfr]
    · simp only [beq_iff_eq, h, if_false] at hfr
      rw [← hfr] at hqid
      exact absurd hqid h

/-- Witness for `updateStock_no_warehouse_check` at a concrete state. -/
theorem updateStock_no_warehouse_check_witness :
    (updateStock dbTen (some 1) (some 12) none).2 = .success ∧
    ((updateStock dbTen (some 1) (some 12) none).1).products.map
        (fun q => (q.id, q.warehouse_stock))
      = dbTen.products.map (fun q => (q.id, q.warehouse_stock)) ∧
    ∀ q ∈ ((updateStock dbTen (some 1) (some 12) none).1).products,
        q.id = 1 → q.stock = 12 :=
  updateStock_no_warehouse_check dbTen 1 12 none prodTen
    (by decide) (by decide)

/-- C2, counterexample: a one-call sequence of a successful update-stock
request on a product with `stock = 10`, `warehouse_stock = 5` changes
`stock + warehouse_stock` from 15 to 25 — the sum is not invariant. -/
theorem updateStock_sum_not_invariant_cex :
    (updateStock dbTen (some 1) (some 20) none).2 = .success ∧
    (runUpdateStockSeq dbTen [⟨some 1, some 20, none⟩]).products.map
        (fun p => p.stock + p.warehouse_stock) = [25] ∧
    dbTen.products.map (fun p => p.stock + p.warehouse_stock) = [15] := by
  decide

/-- C2, amended: across any sequence of update-stock calls, every product's
`warehouse_stock` is unchanged (the handler never touches it); each
successful call overwrites `stock` with the requested value, so the sum
`stock + warehouse_stock` is not conserved — it moves with the request. -/
theorem runUpdateStockSeq_warehouse_invariant (db : DB)
    (calls : List StockCall) :
    (runUpdateStockSeq db calls).products.map
        (fun p => (p.id, p.warehouse_stock))
      = db.products.map (fun p => (p.id, p.warehouse_stock)) := by
  induction calls generalizing db with
  | nil => rfl
  | cons c cs ih =>
    have h1 : runUpdateStockSeq db (c :: cs)
        = runUpdateStockSeq ((updateStock db c.productId c.newStock c.reason).1) cs := rfl
    rw [h1, ih, updateStock_warehouse_map]

/-- C3, counterexample: a creation request with initial stock 3 that
passes validation and the duplicate check inserts a row whose telegram
(sellable) counter is 3 but whose `warehouse_stock` is seeded with 0 —
not the claimed 15000-unit allocation — and the call does not even
complete successfully: the handler throws `ReferenceError` right after
dispatching the INSERT, so no creation ever returns success. -/
theorem addProduct_warehouse_zero_cex :
    (addProduct2 emptyDB addReq3 7).2 = .referenceError ∧
    ¬ (addProduct2 emptyDB addReq3 7).2 = .success 1 ∧
    ((addProduct2 emptyDB addReq3 7).1).products.map Product.telegram_stock
      = [3] ∧
    ((addProduct2 emptyDB addReq3 7).1).products.map Product.warehouse_stock
      = [0] ∧
    ¬ ((addProduct2 emptyDB addReq3 7).1).products.map Product.warehouse_stock
      = [15000] := by
  decide

/-- C3, amended: product creation never completes successfully — once
validation and the duplicate check pass, the dispatched INSERT creates the
row with its telegram (sellable) counter set to the requested quantity,
its `warehouse_stock` seeded with 0 (not 15000), and its total `stock`
column set to the same quantity, and the handler then throws
`ReferenceError` (`productId` out of scope at src/app.js:1531) before any
image insert or success response. -/
theorem addProduct2_seeds_warehouse_zero (db : DB) (req : AddProductReq)
    (now : Nat) (nm : String) (price quantity : Int) (cid : Nat)
    (hn : req.name = some nm) (hp : req.price = some price)
    (hq : req.quantity = some quantity) (hc : req.category_id = some cid)
    (hf : req.files ≠ [])
    (hdup : (db.products.filter
      (fun p => p.name == nm && p.is_active)).isEmpty) :
    (addProduct2 db req now).2 = .referenceError ∧
    (∀ pid, ¬ (addProduct2 db req now).2 = .success pid) ∧
    ∃ p, ((addProduct2 db req now).1).products.getLast? = some p ∧
      p.telegram_stock = quantity ∧ p.warehouse_stock = 0 ∧
      p.stock = quantity := by
  have hfe : req.files.isEmpty = false := by
    cases hl : req.files with
    | nil => exact absurd hl hf
    | cons a l => rfl
  unfold addProduct2
  rw [hn, hp, hq, hc]
  simp only [hfe, Bool.false_eq_true, if_false, hdup, Bool.not_true]
  refine ⟨trivial, ?_, ?_⟩
  · intro pid h
    exact AddProductResult.noConfusion h
  · exact ⟨_, List.getLast?_concat _, rfl, rfl, rfl⟩

/-- Witness for `addProduct2_seeds_warehouse_zero`. -/
theorem addProduct2_seeds_warehouse_zero_witness :
    (addProduct2 emptyDB addReq3 7).2 = .referenceError ∧
    (∀ pid, ¬ (addProduct2 emptyDB addReq3 7).2 = .success pid) ∧
    ∃ p, ((addProduct2 emptyDB addReq3 7).1).products.getLast? = some p ∧
      p.telegram_stock = 3 ∧ p.warehouse_stock = 0 ∧ p.stock = 3 :=
  addProduct2_seeds_warehouse_zero emptyDB addReq3 7 "Gadget" 5 3 1
    rfl rfl rfl rfl (by decide) (by decide)

/-- C4, counterexample: creating a product whose name equals the active
product "Widget" fails with the duplicate-name error and writes no product
or image rows — but the uploaded file `g.png`, stored by the multer
middleware before the handler ran, REMAINS in the blob store, so "no
stored image blobs for that call exist" is false. -/
theorem addProduct_duplicate_blob_cex :
    (addProduct2 dbTen dupReq 9).2 = .duplicateName ∧
    ((addProduct2 dbTen dupReq 9).1).products = dbTen.products ∧
    ((addProduct2 dbTen dupReq 9).1).product_images
      = dbTen.product_images ∧
    ((addProduct2 dbTen dupReq 9).1).blobs = ["/uploads/g.png"] ∧
    ¬ ((addProduct2 dbTen dupReq 9).1).blobs = dbTen.blobs := by
  decide

/-- C4, amended: a createProduct call whose name equals an existing active
product's name fails with the duplicate-name error; the uniqueness check
happens before any database write, so no product row and no
`product_images` rows are created — but the uploaded image files, stored
by the upload middleware before the handler body runs, remain in the blob
store. -/
theorem addProduct2_duplicate_no_rows (db : DB) (req : AddProductReq)
    (now : Nat) (nm : String) (price quantity : Int) (cid : Nat)
    (hn : req.name = some nm) (hp : req.price = some price)
    (hq : req.quantity = some quantity) (hc : req.category_id = some cid)
    (hf : req.files ≠ [])
    (hdup : ¬ (db.products.filter
      (fun p => p.name == nm && p.is_active)).isEmpty) :
    (addProduct2 db req now).2 = .duplicateName ∧
    ((addProduct2 db req now).1).products = db.products ∧
    ((addProduct2 db req now).1).product_images = db.product_images ∧
    ((addProduct2 db req now).1).blobs
      = db.blobs ++ req.files.map (fun f => "/uploads/" ++ f) := by
  have hfe : req.files.isEmpty = false := by
    cases hl : req.files with
    | nil => exact absurd hl hf
    | cons a l => rfl
  have hdup' : (db.products.filter
      (fun p => p.name == nm && p.is_active)).isEmpty = false := by
    cases h : (db.products.filter (fun p => p.name == nm && p.is_active)).isEmpty
    · rfl
    · exact absurd h hdup
  unfold addProduct2
  rw [hn, hp, hq, hc]
  simp [hfe, hdup']

/-- Witness for `addProduct2_duplicate_no_rows`. -/
theorem addProduct2_duplicate_no_rows_witness :
    (addProduct2 dbTen dupReq 9).2 = .duplicateName ∧
    ((addProduct2 dbTen dupReq 9).1).products = dbTen.products ∧
    ((addProduct2 dbTen dupReq 9).1).product_images
      = dbTen.product_images ∧
    ((addProduct2 dbTen dupReq 9).1).blobs
      = dbTen.blobs ++ dupReq.files.map (fun f => "/uploads/" ++ f) :=
  addProduct2_duplicate_no_rows dbTen dupReq 9 "Widget" 4 2 1
    rfl rfl rfl rfl (by decide) (by decide)

/-- C8, counterexample: the first addproduct variant uses
`parseInt(coverIndex) || 0` with NO clamping: creating a product with one
image and `coverIndex = 5` dereferences the missing upload
`req.files[5]` and the handler crashes — after the product row was
already inserted. -/
theorem addProduct1_unclamped_cover_cex :
    (addProduct1 emptyDB oobReq 3).2 = .crash 1 ∧
    oobReq.files.get? 5 = none ∧
    ((addProduct1 emptyDB oobReq 3).1).products.map Product.name
      = ["Solo"] := by
  decide

/-- C8, amended: no createProduct call chooses its cover by clamping.
The first addproduct variant uses `parseInt(coverIndex) || 0` UNCLAMPED,
and an out-of-range index dereferences a missing upload, crashing the
handler after the product row insert (see the counterexample).  The
second variant's `safeIndex` clamp (src/app.js:1539-1542) is dead code:
the handler throws `ReferenceError` at src/app.js:1531 before the image
insert and cover update run, so it never sets a cover at all — the new
row keeps a NULL cover and no image rows are attached. -/
theorem addProduct_cover_never_clamped (db : DB) (req : AddProductReq)
    (now : Nat) (nm : String) (price quantity : Int) (cid : Nat)
    (hn : req.name = some nm) (hp : req.price = some price)
    (hq : req.quantity = some quantity) (hc : req.category_id = some cid)
    (hf : req.files ≠ [])
    (hdup : (db.products.filter
      (fun p => p.name == nm && p.is_active)).isEmpty)
    (hoob : req.coverIndex.getD 0 < 0 ∨
      (req.files.length : Int) ≤ req.coverIndex.getD 0) :
    (∃ pid, (addProduct1 db req now).2 = .crash pid) ∧
    (addProduct2 db req now).2 = .referenceError ∧
    ((addProduct2 db req now).1).product_images = db.product_images ∧
    ∃ p, ((addProduct2 db req now).1).products.getLast? = some p ∧
      p.image_url = none := by
  have hfe : req.files.isEmpty = false := by
    cases hl : req.files with
    | nil => exact absurd hl hf
    | cons a l => rfl
  constructor
  · have hnone : (if (0 : Int) ≤ req.coverIndex.getD 0 then
        req.files.get? (req.coverIndex.getD 0).toNat else none) = none := by
      rcases hoob with h | h
      · rw [if_neg (by omega)]
      · rw [if_pos (by omega)]
        exact List.get?_eq_none.mpr (by omega)
    unfold addProduct1
    rw [hn, hp, hq, hc]
    simp only [hfe, Bool.false_eq_true, if_false, hdup, Bool.not_true, hnone]
    exact ⟨_, rfl⟩
  · unfold addProduct2
    rw [hn, hp, hq, hc]
    simp only [hfe, Bool.false_eq_true, if_false, hdup, Bool.not_true]
    exact ⟨trivial, trivial, _, List.getLast?_concat _, rfl⟩

/-- Witness for `addProduct_cover_never_clamped` at the one-upload request
with `coverIndex = 5`. -/
theorem addProduct_cover_never_clamped_witness :
    (∃ pid, (addProduct1 emptyDB oobReq 3).2 = .crash pid) ∧
    (addProduct2 emptyDB oobReq 3).2 = .referenceError ∧
    ((addProduct2 emptyDB oobReq 3).1).product_images
      = emptyDB.product_images ∧
    ∃ p, ((addProduct2 emptyDB oobReq 3).1).products.getLast? = some p ∧
      p.image_url = none :=
  addProduct_cover_never_clamped emptyDB oobReq 3 "Solo" 1 1 1
    rfl rfl rfl rfl (by decide) (by decide) (by decide)

/-- C7, counterexample: editing product 1 with `removedImages = [7]`,
where image 7 belongs to product 2, does not fail with ImageNotFound —
the handler has no failure outcome — and the batch is not rejected:
row 7, another product's image, is deleted (and its file unlinked),
while the claim requires that no row be deleted. -/
theorem removeImages_foreign_id_cex :
    (editProduct2 dbTwo 1 editReqRemove7).product_images = [imgOwn] ∧
    ¬ (editProduct2 dbTwo 1 editReqRemove7).product_images
        = dbTwo.product_images ∧
    (editProduct2 dbTwo 1 editReqRemove7).blobs = ["/uploads/own.png"] := by
  decide

/-- C7, amended: the image-removal step performs no ownership check and
never fails: a `product_images` row survives the call if and only if its
id is not in the removal list, regardless of which product owns it —
rows of the target product are deleted, and so are rows of any other
product whose id happens to be listed. -/
theorem removeImages_no_ownership_check (db : DB) (ids : List Nat)
    (r : ProductImage) :
    r ∈ (removeImagesStep db ids).product_images ↔
      r ∈ db.product_images ∧ ids.contains r.id = false := by
  unfold removeImagesStep
  cases h : ids.isEmpty
  · simp only [Bool.false_eq_true, if_false, List.mem_filter,
      Bool.not_eq_eq_eq_not, Bool.not_true]
  · have hnil : ids = [] := by
      cases ids with
      | nil => rfl
      | cons a l => exact absurd h (by simp [List.isEmpty])
    subst hnil
    simp

/-- C5, counterexample: "retiring" product 1 does not set `is_active = 0`:
the handler hard-deletes, so afterwards there is no product row at all
(in particular no row with `is_active = false`), the product's image row
is gone, and its blob was unlinked — the images are not retrievable. -/
theorem deleteProduct_hard_cex :
    (deleteProduct dbImg 1).products = [] ∧
    (deleteProduct dbImg 1).product_images = [] ∧
    (deleteProduct dbImg 1).blobs = [] ∧
    ¬ (deleteProduct dbImg 1).products.map Product.is_active = [false] := by
  decide

/-- Sort membership helper: inserting preserves the members. -/
theorem mem_insertByCreated {q p : Product} {l : List Product} :
    q ∈ insertByCreated p l ↔ q = p ∨ q ∈ l := by
  induction l with
  | nil => simp [insertByCreated]
  | cons a l ih =>
    unfold insertByCreated
    by_cases h : p.created_at ≤ a.created_at
    · simp [h]
    · simp [h, ih]
      tauto

/-- Sort membership helper: sorting preserves the members. -/
theorem mem_sortByCreated {q : Product} {l : List Product} :
    q ∈ sortByCreated l ↔ q ∈ l := by
  induction l with
  | nil => simp [sortByCreated]
  | cons a l ih => simp [sortByCreated, mem_insertByCreated, ih]

/-- C5, amended: the deleteproduct handler HARD-deletes: after the call no
product row with the deleted id exists (rather than an `is_active = 0`
row), no `product_images` row of that product survives, and the product
is absent from every `listProducts` page because its row is gone. -/
theorem deleteProduct_hard_delete (db : DB) (pid : Nat) (pageReq : Int)
    (q : Option String) (catId : Option Nat) :
    (∀ p ∈ (deleteProduct db pid).products, p.id ≠ pid) ∧
    (∀ r ∈ (deleteProduct db pid).product_images, r.product_id ≠ pid) ∧
    (∀ p ∈ (listProducts (deleteProduct db pid) pageReq q catId).items,
        p.id ≠ pid) := by
  have hprod : ∀ p ∈ (deleteProduct db pid).products, p.id ≠ pid := by
    intro p hp
    unfold deleteProduct at hp
    simp only [List.mem_filter, Bool.not_eq_eq_eq_not, Bool.not_true,
      beq_eq_false_iff_ne, ne_eq] at hp
    exact hp.2
  refine ⟨hprod, ?_, ?_⟩
  · intro r hr
    unfold deleteProduct at hr
    simp only [List.mem_filter, Bool.not_eq_eq_eq_not, Bool.not_true,
      beq_eq_false_iff_ne, ne_eq] at hr
    exact hr.2
  · intro p hp
    apply hprod
    unfold listProducts at hp
    simp only at hp
    have h1 := List.take_subset _ _ hp
    have h2 := List.drop_subset _ _ h1
    rw [mem_sortByCreated] at h2
    exact (List.mem_filter.mp h2).1

/-- Witness for `deleteProduct_hard_delete`: after deleting product 1 from
a two-product state, product 2 still appears on page 1 and its id differs
from the deleted one. -/
theorem deleteProduct_hard_delete_witness :
    prodTwo ∈ (listProducts (deleteProduct dbTwo 1) 1 none none).items ∧
    prodTwo.id ≠ 1 :=
  ⟨by decide,
   (deleteProduct_hard_delete dbTwo 1 1 none none).2.2 prodTwo (by decide)⟩

/-- Inserting into a `created_at`-sorted list keeps it sorted. -/
theorem sorted_insertByCreated (p : Product) (l : List Product)
    (h : l.Pairwise (fun a b => a.created_at ≤ b.created_at)) :
    (insertByCreated p l).Pairwise
      (fun a b => a.created_at ≤ b.created_at) := by
  induction l with
  | nil => simp [insertByCreated]
  | cons a l ih =>
    rw [List.pairwise_cons] at h
    unfold insertByCreated
    by_cases hc : p.created_at ≤ a.created_at
    · simp only [hc, if_true]
      refine List.pairwise_cons.mpr ⟨?_, List.pairwise_cons.mpr h⟩
      intro b hb
      rcases List.mem_cons.mp hb with hb | hb
      · rw [hb]; exact hc
      · exact le_trans hc (h.1 b hb)
    · simp only [hc, if_false]
      refine List.pairwise_cons.mpr ⟨?_, ih h.2⟩
      intro b hb
      rcases mem_insertByCreated.mp hb with hb | hb
      · rw [hb]; exact le_of_not_le hc
      · exact h.1 b hb

/-- The embedded `ORDER BY created_at ASC` really sorts ascending. -/
theorem sorted_sortByCreated (l : List Product) :
    (sortByCreated l).Pairwise
      (fun a b => a.created_at ≤ b.created_at) := by
  induction l with
  | nil => simp [sortByCreated]
  | cons a l ih => exact sorted_insertByCreated a _ ih

/-- C9: a page request of 0 or below behaves exactly like page 1; every
page holds at most the fixed page size of 6 rows; the returned rows
ascend by creation time; and the reported page count is
`ceil(totalMatching / 6)` with a floor of 1. -/
theorem listProducts_pagination (db : DB) (q : Option String)
    (catId : Option Nat) (p1 p2 : Int) (hp1 : p1 ≤ 0) :
    listProducts db p1 q catId = listProducts db 1 q catId ∧
    (listProducts db p2 q catId).items.length ≤ 6 ∧
    (listProducts db p2 q catId).items.Pairwise
      (fun a b => a.created_at ≤ b.created_at) ∧
    (listProducts db p2 q catId).totalPages
      = max (((db.products.filter (matchesFilter db q catId)).length + 6 - 1)
          / 6) 1 := by
  refine ⟨?_, ?_, ?_, rfl⟩
  · have h1 : max p1 1 = (1 : Int) := max_eq_right (by omega)
    have h2 : max (1 : Int) 1 = (1 : Int) := max_self 1
    unfold listProducts
    rw [h1, h2]
  · exact List.length_take_le _ _
  · exact List.Pairwise.sublist
      ((List.take_sublist _ _).trans (List.drop_sublist _ _))
      (sorted_sortByCreated _)

/-- Witness for `listProducts_pagination` at page request 0. -/
theorem listProducts_pagination_witness :
    listProducts dbTwo 0 none none = listProducts dbTwo 1 none none ∧
    (listProducts dbTwo 3 none none).items.length ≤ 6 ∧
    (listProducts dbTwo 3 none none).items.Pairwise
      (fun a b => a.created_at ≤ b.created_at) ∧
    (listProducts dbTwo 3 none none).totalPages
      = max (((dbTwo.products.filter (matchesFilter dbTwo none none)).length
          + 6 - 1) / 6) 1 :=
  listProducts_pagination dbTwo none none 0 3 (by decide)

/-- `minById` returns a member of least id (and only fails on `[]`). -/
theorem minById_spec (l : List ProductImage) (hl : l ≠ []) :
    ∃ e, minById l = some e ∧ e ∈ l ∧ ∀ r ∈ l, e.id ≤ r.id := by
  induction l with
  | nil => exact absurd rfl hl
  | cons a l ih =>
    cases l with
    | nil =>
      refine ⟨a, rfl, List.mem_singleton_self a, ?_⟩
      intro r hr
      rw [List.mem_singleton.mp hr]
    | cons b l2 =>
      obtain ⟨e, he, hmem, hle⟩ := ih (by simp)
      by_cases h : a.id < e.id
      · refine ⟨a, ?_, List.mem_cons_self a _, ?_⟩
        · unfold minById
          rw [he]
          simp [h]
        · intro r hr
          rcases List.mem_cons.mp hr with hr | hr
          · rw [hr]
          · exact le_of_lt (lt_of_lt_of_le h (hle r hr))
      · refine ⟨e, ?_, List.mem_cons_of_mem a hmem, ?_⟩
        · unfold minById
          rw [he]
          simp [h]
        · intro r hr
          rcases List.mem_cons.mp hr with hr | hr
          · rw [hr]; exact Nat.le_of_not_lt h
          · exact hle r hr

/-- When the requested cover id does not resolve for this product, the
cover falls back to the least-id (earliest-inserted) image of the
product, or NULL when the product has no images. -/
theorem coverFallback_spec (imgs : List ProductImage) (pid : Nat)
    (cov : Option Nat)
    (hmiss : ∀ cid, cov = some cid →
      imgs.find? (fun r => r.id == cid && r.product_id == pid) = none) :
    (imgs.filter (fun r => r.product_id == pid) = [] →
      coverFallback imgs pid cov = none) ∧
    (imgs.filter (fun r => r.product_id == pid) ≠ [] →
      ∃ e, e ∈ imgs.filter (fun r => r.product_id == pid) ∧
        (∀ r ∈ imgs.filter (fun r => r.product_id == pid), e.id ≤ r.id) ∧
        coverFallback imgs pid cov = some e.image_url) := by
  have hfb : coverFallback imgs pid cov
      = (earliestImageOf imgs pid).map ProductImage.image_url := by
    cases cov with
    | none => rfl
    | some cid =>
      simp [coverFallback, hmiss cid rfl]
  constructor
  · intro hempty
    rw [hfb]
    unfold earliestImageOf
    rw [hempty]
    rfl
  · intro hne
    obtain ⟨e, he, hmem, hle⟩ := minById_spec _ hne
    refine ⟨e, hmem, hle, ?_⟩
    rw [hfb]
    unfold earliestImageOf
    rw [he]
    rfl

/-- C6: after a product edit, if the designated cover image id is absent
or no longer resolves to an image of this product, then: when at least
one image remains attached the product's cover becomes the
earliest-inserted (least-id) remaining image, and when zero images remain
the cover becomes NULL. -/
theorem editProduct_cover_fallback (db : DB) (pid : Nat)
    (req : EditProductReq) (p : Product)
    (hmiss : ∀ cid, req.coverImageId = some cid →
      (editProduct2 db pid req).product_images.find?
        (fun r => r.id == cid && r.product_id == pid) = none)
    (hp : p ∈ (editProduct2 db pid req).products) (hpid : p.id = pid) :
    ((editProduct2 db pid req).product_images.filter
        (fun r => r.product_id == pid) = [] → p.image_url = none) ∧
    ((editProduct2 db pid req).product_images.filter
        (fun r => r.product_id == pid) ≠ [] →
      ∃ e, e ∈ (editProduct2 db pid req).product_images.filter
          (fun r => r.product_id == pid) ∧
        (∀ r ∈ (editProduct2 db pid req).product_images.filter
            (fun r => r.product_id == pid), e.id ≤ r.id) ∧
        p.image_url = some e.image_url) := by
  have hcov : p.image_url
      = coverFallback ((editProduct2 db pid req).product_images) pid
          req.coverImageId := by
    simp only [editProduct2] at hp
    obtain ⟨q0, hq0, hq⟩ := List.mem_map.mp hp
    by_cases h : q0.id = pid
    · rw [← hq]
      simp only [h, beq_self_eq_true, if_true]
      rfl
    · exfalso
      rw [← hq] at hpid
      simp only [beq_iff_eq, h, if_false] at hpid
  rw [hcov]
  exact coverFallback_spec _ pid req.coverImageId hmiss

/-- Witness for `editProduct_cover_fallback`: removing the cover image
(id 1) while image 2 remains makes image 2 — the earliest remaining — the
new cover. -/
theorem editProduct_cover_fallback_witness :
    ((editProduct2 dbCover 1 editReqCover).product_images.filter
        (fun r => r.product_id == 1) = [] → pAfterCover.image_url = none) ∧
    ((editProduct2 dbCover 1 editReqCover).product_images.filter
        (fun r => r.product_id == 1) ≠ [] →
      ∃ e, e ∈ (editProduct2 dbCover 1 editReqCover).product_images.filter
          (fun r => r.product_id == 1) ∧
        (∀ r ∈ (editProduct2 dbCover 1 editReqCover).product_images.filter
            (fun r => r.product_id == 1), e.id ≤ r.id) ∧
        pAfterCover.image_url = some e.image_url) :=
  editProduct_cover_fallback dbCover 1 editReqCover pAfterCover
    (by
      intro cid hc
      injection hc with h
      subst h
      decide)
    (by decide) (by decide)

/-- C10: a missing name parameter reports the name as available
(`exists = false`), a database error also reports `exists = false`, and
for a name no active product carries the two answers coincide — a caller
cannot distinguish a database failure from a genuinely unused name. -/
theorem checkProductName_fails_closed (db : DB) (name : Option String)
    (n : String)
    (hunused : (db.products.filter
      (fun p => p.name == n && p.is_active)).isEmpty) :
    checkProductName db true name = false ∧
    checkProductName db false none = false ∧
    checkProductName db false (some n) = checkProductName db true (some n) := by
  refine ⟨?_, rfl, ?_⟩
  · cases name <;> rfl
  · simp [checkProductName, hunused]

/-- Witness for `checkProductName_fails_closed`: the state holds only the
active product "Widget", so "Nope" is genuinely unused. -/
theorem checkProductName_fails_closed_witness :
    checkProductName dbTen true (some "Widget") = false ∧
    checkProductName dbTen false none = false ∧
    checkProductName dbTen false (some "Nope")
      = checkProductName dbTen true (some "Nope") :=
  checkProductName_fails_closed dbTen (some "Widget") "Nope" (by decide)
